import Mathlib

/-!
Shallow embedding of `runc.c` (sjmulder/runc), a compile-and-run script cache.

Bytes are `Nat` values below 256, machine words are `Nat` taken modulo `2 ^ 32`
where overflow matters.  C strings become Lean `String`/`List Char`; a C
function that can return `NULL` becomes an `Option`.  External components the
program calls (OpenSSL's `SHA1`, POSIX `regcomp`/`regexec`, the shell behind
`system`) are embedded by their documented semantics, noted at each definition.
-/

namespace Runc

/-- Truncation to a 32-bit machine word. -/
def w32 (x : Nat) : Nat := x % 4294967296

/-- 32-bit left rotation by `n` (for `x < 2 ^ 32`, `n ≤ 32`).  The two halves
occupy disjoint bit ranges, so the `or` is a sum. -/
def rotl32 (n x : Nat) : Nat := w32 (x * 2 ^ n) + x / 2 ^ (32 - n)

/-- SHA-1 round function `f_t` (FIPS 180).  Complement of `b` within 32 bits is
`4294967295 - b`. -/
def sha1F (t b c d : Nat) : Nat :=
  if t < 20 then ((b &&& c) ||| ((4294967295 - b) &&& d))
  else if t < 40 then (b ^^^ c ^^^ d)
  else if t < 60 then ((b &&& c) ||| (b &&& d) ||| (c &&& d))
  else (b ^^^ c ^^^ d)

/-- SHA-1 round constants `K_t`. -/
def sha1K (t : Nat) : Nat :=
  if t < 20 then 1518500249
  else if t < 40 then 1859775393
  else if t < 60 then 2400959708
  else 3395469782

/-- Expand the 16 message words of a block to the 80-word schedule. -/
def sha1Schedule (ws : List Nat) : List Nat :=
  (List.range 64).foldl
    (fun acc i =>
      acc ++ [rotl32 1 (acc.getD (i + 13) 0 ^^^ acc.getD (i + 8) 0 ^^^
                        acc.getD (i + 2) 0 ^^^ acc.getD i 0)])
    ws

/-- SHA-1 initial chaining value. -/
def sha1Init : Nat × Nat × Nat × Nat × Nat :=
  (1732584193, 4023233417, 2562383102, 271733878, 3285377520)

/-- One SHA-1 compression step over a 64-byte block (bytes as `Nat < 256`). -/
def sha1Compress (h : Nat × Nat × Nat × Nat × Nat) (block : List Nat) :
    Nat × Nat × Nat × Nat × Nat :=
  let ws16 := (List.range 16).map (fun i =>
    block.getD (4 * i) 0 * 16777216 + block.getD (4 * i + 1) 0 * 65536 +
    block.getD (4 * i + 2) 0 * 256 + block.getD (4 * i + 3) 0)
  let ws80 := sha1Schedule ws16
  let st := ws80.enum.foldl
    (fun st p =>
      let a := st.1; let b := st.2.1; let c := st.2.2.1
      let d := st.2.2.2.1; let e := st.2.2.2.2
      (w32 (rotl32 5 a + sha1F p.1 b c d + e + sha1K p.1 + p.2),
       a, rotl32 30 b, c, d))
    h
  (w32 (h.1 + st.1), w32 (h.2.1 + st.2.1), w32 (h.2.2.1 + st.2.2.1),
   w32 (h.2.2.2.1 + st.2.2.2.1), w32 (h.2.2.2.2 + st.2.2.2.2))

/-- SHA-1 padding: append `0x80`, zeros to 56 mod 64, then the bit length as
eight big-endian bytes. -/
def sha1Pad (msg : List Nat) : List Nat :=
  msg ++ 128 :: List.replicate ((64 - (msg.length + 9) % 64) % 64) 0 ++
    (List.range 8).map (fun i => msg.length * 8 / 2 ^ (8 * (7 - i)) % 256)

/-- A 32-bit word as four big-endian bytes. -/
def wordBytes (x : Nat) : List Nat :=
  [x / 16777216 % 256, x / 65536 % 256, x / 256 % 256, x % 256]

/-- Final SHA-1 digest bytes from the chaining state. -/
def digestBytes (h : Nat × Nat × Nat × Nat × Nat) : List Nat :=
  wordBytes h.1 ++ wordBytes h.2.1 ++ wordBytes h.2.2.1 ++
  wordBytes h.2.2.2.1 ++ wordBytes h.2.2.2.2

/-- Modelled from the spec: OpenSSL's `SHA1` (runc.c line 98), the standard
160-bit SHA-1 digest of a byte sequence, external to the repository.
Implemented per FIPS 180. -/
def SHA1bytes (msg : List Nat) : List Nat :=
  let padded := sha1Pad msg
  let blocks := (List.range (padded.length / 64)).map
    (fun i => (padded.drop (64 * i)).take 64)
  digestBytes (blocks.foldl sha1Compress sha1Init)

/-- `source_hash` (runc.c lines 94-100): hashes the source bytes with SHA-1,
returning the 20-byte digest.  The `malloc` of the digest buffer is modelled
as succeeding (its failure path returns `NULL` and aborts the invocation). -/
def source_hash (data : List Nat) : List Nat := SHA1bytes data

theorem digestBytes_length (h : Nat × Nat × Nat × Nat × Nat) :
    (digestBytes h).length = 20 := by
  simp [digestBytes, wordBytes]

theorem SHA1bytes_length (msg : List Nat) : (SHA1bytes msg).length = 20 :=
  digestBytes_length _

/-- One lowercase hexadecimal digit (`'0'` is 48, `'a'` is 97). -/
def hexDigit (n : Nat) : Char :=
  if n < 10 then Char.ofNat (48 + n) else Char.ofNat (87 + n)

/-- `to_hex` (runc.c lines 22-27): lowercase hexadecimal rendering of a byte
sequence, two digits per byte (`sprintf "%02x"`). -/
def to_hex (bytes : List Nat) : String :=
  String.mk (bytes.foldr (fun b acc => hexDigit (b / 16) :: hexDigit (b % 16) :: acc) [])

theorem to_hex_foldr_length (bytes : List Nat) :
    (bytes.foldr (fun b acc => hexDigit (b / 16) :: hexDigit (b % 16) :: acc) []).length =
      2 * bytes.length := by
  induction bytes with
  | nil => rfl
  | cons b bs ih =>
    simp only [List.foldr, List.length_cons, ih]
    omega

theorem to_hex_length (bytes : List Nat) : (to_hex bytes).length = 2 * bytes.length := by
  simp only [to_hex, String.length, to_hex_foldr_length]

/-- `get_cache_path` (runc.c lines 103-118) applied to a resolved home
directory: appends the fixed suffix.  The `HOME`/`getpwuid` lookup itself is
environment input, modelled as an `Option String` in `Sys.home` below
(`none` = neither source yields a path, the function returns `NULL`). -/
def get_cache_path (homedir : String) : String := homedir ++ "/.runc/cache/"

/-- `get_hash_path` (runc.c lines 122-139): cache path concatenated with the
hex encoding of the hash. -/
def get_hash_path (cache_path : String) (hash : List Nat) : String :=
  cache_path ++ to_hex hash

/-- `fopen(filename, "rb")` modelled over an abstract readability predicate:
a successfully opened stream is `some ()`, `NULL` is `none`. -/
def fopen (readable : String → Bool) (filename : String) : Option Unit :=
  if readable filename then some () else none

/-- `file_exists` (runc.c lines 30-36), with its observable footprint: the
first component is the returned `Bool` (`file != NULL`), the second is the
argument handed to the unconditional `fclose(file)` call on line 34. -/
def file_exists_model (readable : String → Bool) (filename : String) :
    Bool × Option Unit :=
  ((fopen readable filename).isSome, fopen readable filename)

/-- The `Bool` result of `file_exists`. -/
def file_exists (readable : String → Bool) (filename : String) : Bool :=
  (file_exists_model readable filename).1

theorem file_exists_eq (readable : String → Bool) (filename : String) :
    file_exists readable filename = readable filename := by
  by_cases h : readable filename = true <;>
    simp [file_exists, file_exists_model, fopen, h]

/-- The bracket expression `[:blank:]` in the `extract_hint` pattern
(runc.c line 145).  POSIX `regcomp` parses it as the literal character set
containing `:`, `b`, `l`, `a`, `n`, `k` — the character class form would be
`[[:blank:]]`.  (Behavior of glibc regcomp/regexec on the exact pattern,
REG_EXTENDED | REG_NEWLINE.) -/
def hintClassChar (c : Char) : Bool :=
  c == ':' || c == 'b' || c == 'l' || c == 'a' || c == 'n' || c == 'k'

/-- Match of the pattern `^[:blank:]*/\*!([^\*]+)\*/[:blank:]*$` against one
line (no newline inside), returning the captured group.  Since `/` is not in
the bracket set, the `/*!` opener can only start at the end of the maximal
leading run of bracket-set characters; the group is the maximal nonempty
`*`-free run after `!`, which must be followed by `*/` and then only
bracket-set characters to the end of the line. -/
def matchLine (cs : List Char) : Option (List Char) :=
  match cs.dropWhile hintClassChar with
  | '/' :: '*' :: '!' :: rest =>
    let payload := rest.takeWhile (fun c => !(c == '*'))
    match rest.dropWhile (fun c => !(c == '*')) with
    | '*' :: '/' :: post =>
      if payload.length > 0 && post.all hintClassChar then some payload else none
    | _ => none
  | _ => none

/-- Split on newline characters (the effect of `REG_NEWLINE` line anchoring:
`^`/`$` match at line boundaries and `[^\*]` never matches a newline). -/
def splitLinesGo : List Char → List Char → List (List Char)
  | [], cur => [cur.reverse]
  | c :: rest, cur =>
    if c == '\n' then cur.reverse :: splitLinesGo rest []
    else splitLinesGo rest (c :: cur)

def splitLines (s : String) : List (List Char) := splitLinesGo s.data []

/-- `extract_hint` (runc.c lines 143-184): `regexec` finds the leftmost match,
i.e. the first line matching the pattern; the returned hint is the captured
group verbatim (including any spaces inside the comment).  `none` models the
`NULL` return (no hint present).  `regcomp` of the fixed pattern succeeds, and
the hint buffer `malloc` is modelled as succeeding (its sizing is examined
separately below). -/
def extract_hint (sourcecode : String) : Option String :=
  (splitLines sourcecode).findSome? (fun line => (matchLine line).map String.mk)

/-- Size in bytes passed to `malloc` for the hint buffer (runc.c line 172:
`malloc(hintlen)`). -/
def hintBufferAlloc (hintlen : Nat) : Nat := hintlen

/-- Index of the terminating-NUL store into the hint buffer (runc.c line 179:
`hint[hintlen] = 0`; `strncpy` before it writes indices `0 .. hintlen - 1`). -/
def hintNulIndex (hintlen : Nat) : Nat := hintlen

/-- `isspace` in the C locale. -/
def isCSpace (c : Char) : Bool :=
  c == ' ' || c == Char.ofNat 9 || c == Char.ofNat 10 || c == Char.ofNat 11 ||
  c == Char.ofNat 12 || c == Char.ofNat 13

/-- `hint_only_flags` (runc.c lines 187-194) on the characters of the
NUL-terminated hint.  The loop condition tests the pointer `c`, not `*c`, so
the scan runs until a character decides the result; the terminating NUL is not
`'-'` and not a space, so it takes the `return false` branch — the empty
list (the NUL reached with no decision) yields `false`, and the function's
final `return true` is unreachable. -/
def hint_only_flags : List Char → Bool
  | [] => false
  | c :: rest =>
    if c == '-' then true
    else if !(isCSpace c) then false
    else hint_only_flags rest

/-- `DEFAULT_COMPILER` (runc.c line 15). -/
def DEFAULT_COMPILER : String := "clang -Wall -std=c99"

/-- The `compiler` variable in `compile` (runc.c lines 200-208). -/
def compileCompiler (hint : Option String) : String :=
  match hint with
  | none => DEFAULT_COMPILER
  | some h => if hint_only_flags h.data then DEFAULT_COMPILER else h

/-- The `extra_flags` variable in `compile` (runc.c lines 201-208). -/
def compileExtraFlags (hint : Option String) : String :=
  match hint with
  | none => ""
  | some h => if hint_only_flags h.data then h else ""

/-- The command line `compile` builds (runc.c lines 198, 213):
`sprintf(cmdline, "%s %s \"%s\" -o \"%s\"", compiler, extra_flags, filename,
output)`. -/
def compileCmdline (filename output : String) (hint : Option String) : String :=
  compileCompiler hint ++ " " ++ compileExtraFlags hint ++ " \"" ++ filename ++
    "\" -o \"" ++ output ++ "\""

/-- The command line `launch` builds (runc.c lines 230-235): the artifact
path, then for each argument `strcat` of `" \""`, the argument, and `" \""`
again — so every argument is wrapped as space, quote, argument, space, quote,
placing a space *inside* the closing quote. -/
def launchCmdline (filename : String) (args : List String) : String :=
  args.foldl (fun acc a => acc ++ " \"" ++ a ++ " \"") filename

/-- Modelled from the spec: POSIX shell field splitting for the command lines
`system` receives, restricted to what these command lines contain — fields
separated by unquoted spaces, with double quotes grouping (no escapes or other
shell metacharacters are modelled).  The resulting fields after the first are
the argument vector the child process receives. -/
def shellWordsGo : Bool → List Char → List Char → List (List Char)
  | _, cur, [] => if cur.isEmpty then [] else [cur]
  | inQ, cur, c :: rest =>
    if c == '"' then shellWordsGo (!inQ) cur rest
    else if c == ' ' && !inQ then
      (if cur.isEmpty then shellWordsGo false [] rest
       else cur :: shellWordsGo false [] rest)
    else shellWordsGo inQ (cur ++ [c]) rest

def shellWords (s : String) : List String :=
  (shellWordsGo false [] s.data).map String.mk

/-- A source file as the spec's data model has it: a path and its bytes. -/
structure SourceFile where
  path : String
  bytes : List Nat

/-- The fingerprint (cache key) of a source file. -/
def fingerprint (f : SourceFile) : List Nat := source_hash f.bytes

/-- Source text as bytes for hashing (`readfilestr` returns the raw bytes;
sources here are ASCII text, one byte per character). -/
def strBytes (s : String) : List Nat := s.data.map Char.toNat

/-- The cache entry path `main` computes for a source text under a home
directory (runc.c lines 257, 264, 271). -/
def outPathOf (home source : String) : String :=
  get_hash_path (get_cache_path home) (source_hash (strBytes source))

theorem outPathOf_length (home source : String) :
    (outPathOf home source).length = home.length + 53 := by
  simp only [outPathOf, get_hash_path, get_cache_path, String.length_append,
    to_hex_length, source_hash, SHA1bytes_length]
  rfl

/-- Observable side effects of one invocation, in program order. -/
inductive Event where
  | mkdirpEvt : String → Event
  | compileEvt : String → Event
  | launchEvt : String → Event
  deriving DecidableEq, Repr

def isCompileEvt : Event → Bool
  | .compileEvt _ => true
  | _ => false

def isMkdirpEvt : Event → Bool
  | .mkdirpEvt _ => true
  | _ => false

def isLaunchEvt : Event → Bool
  | .launchEvt _ => true
  | _ => false

def compileCount (tr : List Event) : Nat := tr.countP isCompileEvt

/-- The environment one invocation of `main` runs in: the filesystem
(readability and content of files), the home directory resolution, the exit
statuses `system(3)` reports for command lines, and the outcomes of the
allocations/creations whose failure paths `main` branches on.  `junk` is the
value an uninitialized `int` read yields (used when `main` reads
`compile_result` although `compile` never stored to it). -/
structure Sys where
  readable : String → Bool
  content : String → String
  home : Option String
  compileStatus : String → Int
  launchStatus : String → Int
  mkdirOk : Bool
  compileMallocOk : Bool
  launchMallocOk : Bool
  junk : Int

/-- The tail of `main` (runc.c lines 313-321): `launch` either fails its
`cmdline` allocation (returns false, `main` returns 1) or builds the command
line and runs it through `system`, `main` returning the child status. -/
def runcLaunchStep (sys : Sys) (out_path : String) (args : List String)
    (ev : List Event) (fs : String → Bool) : Int × List Event × (String → Bool) :=
  if sys.launchMallocOk then
    (sys.launchStatus (launchCmdline out_path args),
     ev ++ [Event.launchEvt (launchCmdline out_path args)], fs)
  else (1, ev, fs)

/-- `main` (runc.c lines 242-322) for `argc ≥ 2`, as a function from the
environment to (exit status, side-effect trace, resulting readability map).
Faithful points worth noting:
* cache hit (`file_exists(out_path)`) jumps straight to `launch`;
* on a miss, `mkdir_p` runs first (its failure exits 1), then `extract_hint`
  and `compile`;
* when `compile`'s own `cmdline` allocation fails, `compile` returns false
  without storing to `compile_result`; `main` prints a diagnostic and frees
  its buffers but has no `return` in that branch (lines 295-300), so it falls
  through to `if (compile_result != 0)` reading the uninitialized value
  (`sys.junk`): nonzero junk is returned as the exit status, zero junk
  proceeds to launch;
* a successful compile (`system` returns 0) is modelled as making the
  artifact at `out_path` readable (the Build Invoker contract); a failing one
  leaves the filesystem map unchanged and its status is returned without
  launching. -/
def runcMain (sys : Sys) (filename : String) (args : List String) :
    Int × List Event × (String → Bool) :=
  if sys.readable filename then
    match sys.home with
    | none => (1, [], sys.readable)
    | some home =>
      let sourcecode := sys.content filename
      let out_path := outPathOf home sourcecode
      if file_exists sys.readable out_path then
        runcLaunchStep sys out_path args [] sys.readable
      else
        if sys.mkdirOk then
          let hint := extract_hint sourcecode
          if sys.compileMallocOk then
            let cmdline := compileCmdline filename out_path hint
            let st := sys.compileStatus cmdline
            if st = 0 then
              runcLaunchStep sys out_path args
                [Event.mkdirpEvt (get_cache_path home), Event.compileEvt cmdline]
                (fun p => (p == out_path) || sys.readable p)
            else
              (st, [Event.mkdirpEvt (get_cache_path home), Event.compileEvt cmdline],
               sys.readable)
          else
            if sys.junk = 0 then
              runcLaunchStep sys out_path args
                [Event.mkdirpEvt (get_cache_path home)] sys.readable
            else
              (sys.junk, [Event.mkdirpEvt (get_cache_path home)], sys.readable)
        else (1, [Event.mkdirpEvt (get_cache_path home)], sys.readable)
  else (1, [], sys.readable)

theorem runcLaunchStep_fs (sys : Sys) (out_path : String) (args : List String)
    (ev : List Event) (fs : String → Bool) :
    (runcLaunchStep sys out_path args ev fs).2.2 = fs := by
  by_cases h : sys.launchMallocOk = true <;> simp [runcLaunchStep, h]

theorem runcLaunchStep_compileCount (sys : Sys) (out_path : String)
    (args : List String) (ev : List Event) (fs : String → Bool) :
    compileCount (runcLaunchStep sys out_path args ev fs).2.1 = compileCount ev := by
  by_cases h : sys.launchMallocOk = true <;>
    simp [runcLaunchStep, h, compileCount, List.countP_append, isCompileEvt]

theorem runcLaunchStep_mkdirpCount (sys : Sys) (out_path : String)
    (args : List String) (ev : List Event) (fs : String → Bool) :
    (runcLaunchStep sys out_path args ev fs).2.1.countP isMkdirpEvt =
      ev.countP isMkdirpEvt := by
  by_cases h : sys.launchMallocOk = true <;>
    simp [runcLaunchStep, h, List.countP_append, isMkdirpEvt]

/-- C2: the content hasher is deterministic — hashing the same byte sequence
twice yields identical 20-byte fingerprints, and two source files with
identical byte content always produce identical fingerprints. -/
theorem C2_source_hash_deterministic :
    (∀ bytes : List Nat,
      source_hash bytes = source_hash bytes ∧ (source_hash bytes).length = 20) ∧
    (∀ f1 f2 : SourceFile, f1.bytes = f2.bytes → fingerprint f1 = fingerprint f2) :=
  ⟨fun bytes => ⟨rfl, SHA1bytes_length bytes⟩,
   fun _ _ h => by simp only [fingerprint, h]⟩

theorem C2_source_hash_deterministic_witness :
    fingerprint ⟨"a.c", [105, 110, 116]⟩ = fingerprint ⟨"b.c", [105, 110, 116]⟩ :=
  C2_source_hash_deterministic.2 ⟨"a.c", [105, 110, 116]⟩ ⟨"b.c", [105, 110, 116]⟩ rfl

/-- C3: the compile step's command construction — no hint gives the default
compiler and flags with no extras; a flags-only hint is appended to the
default invocation; any other hint replaces the compiler invocation entirely,
with the same quoted source and output arguments appended. -/
theorem C3_compile_command_construction (src out : String) :
    compileCmdline src out none =
      DEFAULT_COMPILER ++ " " ++ "" ++ " \"" ++ src ++ "\" -o \"" ++ out ++ "\"" ∧
    (∀ h, hint_only_flags h.data = true →
      compileCmdline src out (some h) =
        DEFAULT_COMPILER ++ " " ++ h ++ " \"" ++ src ++ "\" -o \"" ++ out ++ "\"") ∧
    (∀ h, hint_only_flags h.data = false →
      compileCmdline src out (some h) =
        h ++ " " ++ "" ++ " \"" ++ src ++ "\" -o \"" ++ out ++ "\"") := by
  refine ⟨rfl, fun h hh => ?_, fun h hh => ?_⟩ <;>
    simp [compileCmdline, compileCompiler, compileExtraFlags, hh]

theorem C3_compile_command_construction_witness :
    compileCmdline "a.c" "out" (some "-O2") =
      DEFAULT_COMPILER ++ " " ++ "-O2" ++ " \"" ++ "a.c" ++ "\" -o \"" ++ "out" ++ "\"" ∧
    compileCmdline "a.c" "out" (some "g++ -O2") =
      "g++ -O2" ++ " " ++ "" ++ " \"" ++ "a.c" ++ "\" -o \"" ++ "out" ++ "\"" :=
  ⟨(C3_compile_command_construction "a.c" "out").2.1 "-O2" (by decide),
   (C3_compile_command_construction "a.c" "out").2.2 "g++ -O2" (by decide)⟩

/-- C4: evaluation of `hint_only_flags` on the claim's own example inputs.
A leading `-` does classify as flags-only and a leading non-blank non-`-`
character as a full command, but the empty and all-whitespace hints are
classified as full-command overrides (`false`), not flags-only as claimed:
the loop's condition tests the pointer instead of the character, so the
terminating NUL — which is not a space — hits the `return false` branch, and
the intended vacuous `return true` after the loop is unreachable. -/
theorem C4_hint_only_flags_on_code :
    hint_only_flags "-O2 -Wall".data = true ∧
    hint_only_flags "".data = false ∧
    hint_only_flags "   ".data = false ∧
    hint_only_flags "g++ -std=c++20".data = false := by decide

/-- C5: evaluation of `extract_hint` on the claim's inputs.  A hint line with
leading blanks is NOT matched (the pattern's `[:blank:]` is the literal
character set `:`, `b`, `l`, `a`, `n`, `k`, not the blank class), and the
hint returned for `/*! -O2 */` is ` -O2 ` — the captured group keeps the
spaces around the payload — not `-O2` as claimed. -/
theorem C5_extract_hint_on_code :
    extract_hint "  /*! -O2 */" = none ∧
    extract_hint "int x;\n/*! -O2 */\nint y;" = some " -O2 " ∧
    extract_hint "int x;\n/*! -O2 */\nint y;" ≠ some "-O2" := by decide

/-- C6: the launcher does not pass arguments through verbatim.  Each argument
is wrapped as `space quote argument space quote`, so the child receives every
argument with a trailing space appended: launching `a.out` with the single
argument `x` builds the command line `a.out "x "` whose fields are
`a.out` and `x ` — not `x`. -/
theorem C6_launch_appends_space_to_args :
    launchCmdline "a.out" ["x"] = "a.out \"x \"" ∧
    shellWords (launchCmdline "a.out" ["x"]) = ["a.out", "x "] ∧
    shellWords (launchCmdline "a.out" ["x"]) ≠ ["a.out", "x"] := by decide

/-- C9: `file_exists` on a path with no readable file returns `false`, but the
unconditional `fclose(file)` on line 34 receives the `NULL` that `fopen`
returned — `fclose` is not invoked only on successfully opened handles. -/
theorem C9_fclose_receives_null :
    (file_exists_model (fun _ => false) "missing.bin").1 = false ∧
    (file_exists_model (fun _ => false) "missing.bin").2 = none :=
  ⟨rfl, rfl⟩

/-- C10: the hint buffer is allocated with `malloc(hintlen)` but the
terminating NUL is stored at index `hintlen` — one past the end of the
allocation.  For the source line `/*! -O2 */` the match has length 5, the
allocation holds 5 bytes (not the at-least-6 the claim requires), and the NUL
store at index 5 is out of bounds. -/
theorem C10_hint_nul_store_out_of_bounds :
    extract_hint "/*! -O2 */" = some " -O2 " ∧
    (" -O2 ").length = 5 ∧
    hintNulIndex 5 = 5 ∧
    hintBufferAlloc 5 = 5 ∧
    ¬ hintNulIndex 5 < hintBufferAlloc 5 := by decide

/-- C1: on a cache hit the invocation performs no compilation and no
cache-directory creation and (when `launch`'s allocation succeeds) its trace
is exactly the launch of the existing artifact; on a cache miss with a
successful compile, exactly one compilation occurs, and a second invocation
on the unchanged source — against the filesystem the first produced —
performs no compilation at all. -/
theorem C1_hit_skips_compile_and_second_run_compiles_zero
    (sys : Sys) (filename : String) (args : List String) (home : String)
    (hread : sys.readable filename = true)
    (hhome : sys.home = some home) :
    (sys.readable (outPathOf home (sys.content filename)) = true →
      compileCount (runcMain sys filename args).2.1 = 0 ∧
      (runcMain sys filename args).2.1.countP isMkdirpEvt = 0 ∧
      (sys.launchMallocOk = true →
        (runcMain sys filename args).2.1 =
          [Event.launchEvt (launchCmdline (outPathOf home (sys.content filename)) args)])) ∧
    (sys.readable (outPathOf home (sys.content filename)) = false →
      sys.mkdirOk = true → sys.compileMallocOk = true →
      sys.compileStatus (compileCmdline filename (outPathOf home (sys.content filename))
        (extract_hint (sys.content filename))) = 0 →
      compileCount (runcMain sys filename args).2.1 = 1 ∧
      compileCount (runcMain { sys with readable := (runcMain sys filename args).2.2 }
        filename args).2.1 = 0) := by
  constructor
  · intro hhit
    have e1 : runcMain sys filename args =
        runcLaunchStep sys (outPathOf home (sys.content filename)) args []
          sys.readable := by
      simp [runcMain, hread, hhome, file_exists_eq, hhit]
    rw [e1]
    refine ⟨runcLaunchStep_compileCount _ _ _ _ _,
            runcLaunchStep_mkdirpCount _ _ _ _ _, fun hl => ?_⟩
    simp [runcLaunchStep, hl]
  · intro hmiss hmk hcm hok
    have e1 : runcMain sys filename args =
        runcLaunchStep sys (outPathOf home (sys.content filename)) args
          [Event.mkdirpEvt (get_cache_path home),
           Event.compileEvt (compileCmdline filename
             (outPathOf home (sys.content filename))
             (extract_hint (sys.content filename)))]
          (fun p => (p == outPathOf home (sys.content filename)) || sys.readable p) := by
      simp [runcMain, hread, hhome, file_exists_eq, hmiss, hmk, hcm, hok]
    have e2 : (runcMain sys filename args).2.2 =
        fun p => (p == outPathOf home (sys.content filename)) || sys.readable p := by
      rw [e1, runcLaunchStep_fs]
    constructor
    · rw [e1, runcLaunchStep_compileCount]
      simp [compileCount, isCompileEvt]
    · have hread2 : ((filename == outPathOf home (sys.content filename)) ||
          sys.readable filename) = true := by
        simp [hread]
      have e3 : runcMain
          { sys with readable :=
              fun p => (p == outPathOf home (sys.content filename)) || sys.readable p }
          filename args =
          runcLaunchStep
            { sys with readable :=
                fun p => (p == outPathOf home (sys.content filename)) || sys.readable p }
            (outPathOf home (sys.content filename)) args []
            (fun p => (p == outPathOf home (sys.content filename)) || sys.readable p) := by
        simp [runcMain, hread2, hhome, file_exists_eq]
      rw [e2, e3, runcLaunchStep_compileCount]
      rfl

/-- C7: on a cache miss whose compiler invocation exits nonzero, the whole
invocation terminates with that same status and the launch step is never
executed. -/
theorem C7_nonzero_compile_status_propagates
    (sys : Sys) (filename : String) (args : List String) (home : String)
    (hread : sys.readable filename = true)
    (hhome : sys.home = some home)
    (hmiss : sys.readable (outPathOf home (sys.content filename)) = false)
    (hmk : sys.mkdirOk = true) (hcm : sys.compileMallocOk = true)
    (hnz : sys.compileStatus (compileCmdline filename
      (outPathOf home (sys.content filename))
      (extract_hint (sys.content filename))) ≠ 0) :
    (runcMain sys filename args).1 =
      sys.compileStatus (compileCmdline filename
        (outPathOf home (sys.content filename))
        (extract_hint (sys.content filename))) ∧
    (runcMain sys filename args).2.1.countP isLaunchEvt = 0 := by
  have e1 : runcMain sys filename args =
      (sys.compileStatus (compileCmdline filename
         (outPathOf home (sys.content filename))
         (extract_hint (sys.content filename))),
       [Event.mkdirpEvt (get_cache_path home),
        Event.compileEvt (compileCmdline filename
          (outPathOf home (sys.content filename))
          (extract_hint (sys.content filename)))],
       sys.readable) := by
    simp [runcMain, hread, hhome, file_exists_eq, hmiss, hmk, hcm, hnz]
  rw [e1]
  exact ⟨rfl, by simp [isLaunchEvt]⟩

/-- A concrete environment: only six-character paths name readable files, the
home directory is `/h`, every allocation and creation succeeds, the compiler
and launched program both exit 0. -/
def sysW : Sys where
  readable := fun p => p.length == 6
  content := fun _ => ""
  home := some "/h"
  compileStatus := fun _ => 0
  launchStatus := fun _ => 0
  mkdirOk := true
  compileMallocOk := true
  launchMallocOk := true
  junk := 0

theorem sysW_miss : sysW.readable (outPathOf "/h" (sysW.content "prog.c")) = false := by
  show ((outPathOf "/h" (sysW.content "prog.c")).length == 6) = false
  rw [outPathOf_length]
  rfl

set_option maxRecDepth 8000 in
theorem C1_hit_skips_compile_and_second_run_compiles_zero_witness :
    compileCount (runcMain sysW "prog.c" []).2.1 = 1 ∧
    compileCount (runcMain { sysW with readable := (runcMain sysW "prog.c" []).2.2 }
      "prog.c" []).2.1 = 0 :=
  (C1_hit_skips_compile_and_second_run_compiles_zero sysW "prog.c" [] "/h"
    (by decide) rfl).2 sysW_miss rfl rfl rfl

/-- Like `sysW`, but the compiler child exits with status 2. -/
def sysW7 : Sys := { sysW with compileStatus := fun _ => 2 }

theorem sysW7_miss : sysW7.readable (outPathOf "/h" (sysW7.content "prog.c")) = false := by
  show ((outPathOf "/h" (sysW7.content "prog.c")).length == 6) = false
  rw [outPathOf_length]
  rfl

theorem C7_nonzero_compile_status_propagates_witness :
    (runcMain sysW7 "prog.c" []).1 = 2 ∧
    (runcMain sysW7 "prog.c" []).2.1.countP isLaunchEvt = 0 :=
  ⟨((C7_nonzero_compile_status_propagates sysW7 "prog.c" [] "/h" (by decide) rfl
      sysW7_miss rfl rfl (by decide)).1).trans rfl,
   (C7_nonzero_compile_status_propagates sysW7 "prog.c" [] "/h" (by decide) rfl
      sysW7_miss rfl rfl (by decide)).2⟩

/-- Like `sysW`, but `compile`'s command-line allocation fails and the stack
garbage read as `compile_result` happens to be zero. -/
def sysC8 : Sys := { sysW with compileMallocOk := false }

theorem sysC8_miss : sysC8.readable (outPathOf "/h" (sysC8.content "prog.c")) = false := by
  show ((outPathOf "/h" (sysC8.content "prog.c")).length == 6) = false
  rw [outPathOf_length]
  rfl

/-- C8: when `compile` fails to be invoked at all (its command-line `malloc`
fails, so it returns false without storing a status), `main` prints its
diagnostic but lacks a `return` in that branch: it falls through, reads the
uninitialized `compile_result`, and — here, with that garbage equal to 0 —
proceeds to launch, exiting with status 0.  The invocation neither terminates
with a nonzero status nor refrains from launching. -/
theorem C8_compile_invoke_failure_falls_through_to_launch :
    (runcMain sysC8 "prog.c" []).1 = 0 ∧
    (runcMain sysC8 "prog.c" []).2.1.countP isLaunchEvt = 1 := by
  have e1 : runcMain sysC8 "prog.c" [] =
      runcLaunchStep sysC8 (outPathOf "/h" (sysC8.content "prog.c")) []
        [Event.mkdirpEvt (get_cache_path "/h")] sysC8.readable := by
    simp [runcMain, file_exists_eq, sysC8_miss]
    rfl
  rw [e1]
  constructor
  · simp [runcLaunchStep, sysC8, sysW]
  · simp [runcLaunchStep, sysC8, sysW, isLaunchEvt]


end Runc
